import Mathlib

/-!
Verification of the backend of the tauri_template repository.

The source is a single file with two items:
a command handler that prints a received message to standard output,
and a bootstrap routine that builds the host runtime, registers the
handler under the name notify, loads the bundled context and runs the
blocking event loop, aborting with a diagnostic on a startup error.

The embedding below models the handler by the exact byte sequence it
writes to standard output, the generated dispatch table by a function
from command names to optional results, and the bootstrap by a record
of the configuration it assembles plus the outcome function of the
final expect call.
-/

/-- The fixed text that the handler places before the message when it
formats its console write. -/
def notifyHeader : String := "Notification from renderer: "

/-- Shallow embedding of the notify command handler: it returns unit
together with the exact byte sequence its single console write puts on
standard output, namely the header, the message verbatim, and one
trailing newline appended by the line-printing call. -/
def notify (message : String) : Unit × String :=
  ((), notifyHeader ++ message ++ "\n")

/-- The content of the console write for a given message, without the
trailing newline: the header followed by the message verbatim. -/
def notifyFormat (message : String) : String := notifyHeader ++ message

/-- Whether a message contains the newline character. -/
def containsNewline (m : String) : Bool := decide ('\n' ∈ m.data)

/-- Splits a character stream into completed console lines: a console
line is a maximal newline-free segment terminated by a newline; a
trailing unterminated segment is not a completed line. The first
argument accumulates the current line. -/
def consoleLinesAux : List Char → List Char → List (List Char)
  | _, [] => []
  | acc, c :: cs =>
    if c = '\n' then acc :: consoleLinesAux [] cs
    else consoleLinesAux (acc ++ [c]) cs

/-- The completed console lines of an output stream. -/
def consoleLines (out : String) : List String :=
  (consoleLinesAux [] out.data).map String.mk

/-- The command names registered by the handler-generation macro in the
bootstrap: the sole entry is notify. -/
def registeredCommands : List String := ["notify"]

/-- Embedding of the invoke dispatcher the bootstrap installs: a call
named cmd with a text payload reaches the handler exactly when cmd is
the registered name notify; any other name is rejected by the
dispatcher with no result. -/
def dispatch (cmd : String) (message : String) : Option (Unit × String) :=
  if cmd = "notify" then some (notify message) else none

/-- Strips a full console write back to the message it carried: drops
the fixed header and the one trailing newline. -/
def recoverMessage (out : String) : String :=
  String.mk ((out.data.drop notifyHeader.length).dropLast)

/-- The world state visible to a handler invocation: the standard
output stream plus all other state, of an arbitrary type. -/
structure World (ρ : Type) where
  stdout : String
  rest : ρ

/-- Running the handler on a world: its console write appends to the
standard output stream and touches nothing else. -/
def notifyWorld {ρ : Type} (message : String) (w : World ρ) : World ρ :=
  { w with stdout := w.stdout ++ (notify message).2 }

/-- One invocation of the handler, tracking only the output stream. -/
def runNotify (message : String) (out : String) : String :=
  out ++ (notify message).2

/-- A number of successive invocations of the handler with the same
message, threading the output stream through the calls. -/
def runNotifyN (message : String) : Nat → String → String
  | 0, out => out
  | n + 1, out => runNotifyN message n (runNotify message out)

/-- The byte sequence emitted by a number of invocations. -/
def emitN (message : String) : Nat → String
  | 0 => ""
  | n + 1 => (notify message).2 ++ emitN message n

/-- The builder configuration assembled by the bootstrap: the list of
registered command names. -/
structure Builder where
  handlers : List String

/-- The default builder: no command registered yet. -/
def Builder.default : Builder := ⟨[]⟩

/-- Registering a generated handler list on a builder. -/
def Builder.invokeHandler (b : Builder) (hs : List String) : Builder :=
  ⟨b.handlers ++ hs⟩

/-- The bundled application context loaded at startup; the embedding
records only that it is the statically bundled one. -/
structure Context where
  bundled : Bool

/-- The context produced by the context-generation macro. -/
def generateContext : Context := ⟨true⟩

/-- The running application: the builder it was configured from, the
context it loaded, and the fact that its event loop blocks the calling
thread. -/
structure AppRun where
  builder : Builder
  context : Context
  blocking : Bool

/-- Starting the event loop from a builder and a context. -/
def Builder.run (b : Builder) (ctx : Context) : AppRun := ⟨b, ctx, true⟩

/-- The builder assembled by the bootstrap routine: the default builder
with the generated handler list registered. -/
def mainBuilder : Builder := Builder.default.invokeHandler registeredCommands

/-- The application the bootstrap routine starts. -/
def mainApp : AppRun := mainBuilder.run generateContext

/-- The result of running the host runtime: normal termination, or a
startup error carrying its diagnostic representation. -/
inductive RunResult where
  | ok : RunResult
  | error : String → RunResult

/-- The final outcome of the process. -/
inductive ProcessOutcome where
  | exitNormal : ProcessOutcome
  | panicked : String → ProcessOutcome

/-- Embedding of the expect call on the run result: a startup error
aborts the process at once with the given message followed by the
error, and a normal result exits normally. -/
def runExpect (msg : String) : RunResult → ProcessOutcome
  | RunResult.ok => ProcessOutcome.exitNormal
  | RunResult.error e => ProcessOutcome.panicked (msg ++ ": " ++ e)

/-- The outcome of the bootstrap routine as a function of the run
result of the host runtime. -/
def mainOutcome (r : RunResult) : ProcessOutcome :=
  runExpect "error while running tauri application" r

/-- The data of the output of one handler invocation, in a shape ready
for line splitting. -/
theorem data_notify (m : String) :
    (notify m).2.data = notifyHeader.data ++ (m.data ++ ['\n']) := by
  simp [notify, String.data_append, List.append_assoc]

/-- Rebuilding a string from appended data. -/
theorem mk_data_append (s t : String) :
    String.mk (s.data ++ t.data) = s ++ t := by
  apply String.ext
  simp [String.data_append]

/-- Splitting lines of a stream that starts with a terminated
newline-free segment. -/
theorem consoleLinesAux_append_newline (cs : List Char) :
    ∀ (acc rest : List Char), '\n' ∉ cs →
      consoleLinesAux acc (cs ++ '\n' :: rest) =
        (acc ++ cs) :: consoleLinesAux [] rest := by
  induction cs with
  | nil =>
    intro acc rest _
    simp [consoleLinesAux]
  | cons c cs ih =>
    intro acc rest h
    have hc : ¬ c = '\n' := fun hh => h (hh ▸ List.mem_cons_self c cs)
    have hcs : '\n' ∉ cs := fun hm => h (List.mem_cons_of_mem c hm)
    calc consoleLinesAux acc ((c :: cs) ++ '\n' :: rest)
        = consoleLinesAux (acc ++ [c]) (cs ++ '\n' :: rest) := by
          simp [consoleLinesAux, hc]
      _ = (acc ++ c :: cs) :: consoleLinesAux [] rest := by
          rw [ih (acc ++ [c]) rest hcs]
          simp

/-- The number of completed console lines equals the number of newline
characters in the stream. -/
theorem consoleLinesAux_length (cs : List Char) :
    ∀ acc, (consoleLinesAux acc cs).length = cs.count '\n' := by
  induction cs with
  | nil => intro acc; rfl
  | cons c cs ih =>
    intro acc
    by_cases hc : c = '\n'
    · subst hc
      simp [consoleLinesAux, ih, List.count_cons]
    · simp [consoleLinesAux, hc, ih, List.count_cons]

/-- No newline occurs in the header or in a newline-free message. -/
theorem no_newline_header_message (m : String) (hm : '\n' ∉ m.data) :
    '\n' ∉ notifyHeader.data ++ m.data := by
  intro hmem
  rcases List.mem_append.mp hmem with h1 | h2
  · exact absurd h1 (by decide)
  · exact hm h2

/-- Splitting the lines of one handler write for a newline-free
message yields exactly the formatted content. -/
theorem consoleLines_notify (m : String) (hm : '\n' ∉ m.data) :
    consoleLines (notify m).2 = [notifyFormat m] := by
  unfold consoleLines
  rw [data_notify m]
  have hsh : notifyHeader.data ++ (m.data ++ ['\n']) =
      (notifyHeader.data ++ m.data) ++ '\n' :: [] := by
    simp
  rw [hsh, consoleLinesAux_append_newline _ [] []
    (no_newline_header_message m hm)]
  simp only [List.nil_append, List.map]
  rw [mk_data_append]
  rfl

/-- Successive invocations only append: the stream after n calls is
the prior stream followed by the emitted bytes. -/
theorem runNotifyN_eq (m : String) (n : Nat) :
    ∀ out, runNotifyN m n out = out ++ emitN m n := by
  induction n with
  | zero =>
    intro out
    simp [runNotifyN, emitN]
  | succ n ih =>
    intro out
    calc runNotifyN m (n + 1) out
        = runNotifyN m n (out ++ (notify m).2) := rfl
      _ = (out ++ (notify m).2) ++ emitN m n := ih _
      _ = out ++ emitN m (n + 1) := by
          rw [String.append_assoc]; rfl

/-- The lines of the bytes emitted by n invocations with a
newline-free message are n copies of the formatted content. -/
theorem consoleLinesAux_emitN (m : String) (hm : '\n' ∉ m.data) :
    ∀ n, consoleLinesAux [] (emitN m n).data =
      List.replicate n (notifyFormat m).data := by
  intro n
  induction n with
  | zero => rfl
  | succ n ih =>
    have hdata : (emitN m (n + 1)).data =
        (notifyHeader.data ++ m.data) ++ '\n' :: (emitN m n).data := by
      show ((notify m).2 ++ emitN m n).data = _
      rw [String.data_append, data_notify]
      simp
    rw [hdata, consoleLinesAux_append_newline _ [] _
      (no_newline_header_message m hm), ih]
    simp [notifyFormat, String.data_append, List.replicate_succ]

/-- Stripping the header and the trailing newline from a handler write
recovers the message exactly. -/
theorem recover_notify (m : String) : recoverMessage (notify m).2 = m := by
  unfold recoverMessage
  rw [data_notify]
  have hlen : notifyHeader.length = notifyHeader.data.length := rfl
  rw [hlen, List.drop_left, List.dropLast_concat]

/-- Claim C1 (counterexample): for the message with an embedded newline
the invocation produces two console lines, not exactly one line whose
content is the formatted message. -/
theorem notify_one_line_counterexample :
    (consoleLines (notify "a\nb").2).length = 2 ∧
    ¬ consoleLines (notify "a\nb").2 = [notifyFormat "a\nb"] := by
  decide

/-- Claim C1 (amended): for every text input m containing no newline
character, invoking the notify command with m produces exactly one
console line whose content equals the header concatenated with m, the
bytes written being exactly that content followed by one newline. -/
theorem notify_one_line (m : String) (h : containsNewline m = false) :
    consoleLines (notify m).2 = [notifyFormat m] ∧
    (notify m).2 = notifyFormat m ++ "\n" :=
  ⟨consoleLines_notify m (of_decide_eq_false h), rfl⟩

/-- Claim C1 witness: the amended statement at the concrete message
hello. -/
theorem notify_one_line_witness :
    containsNewline "hello" = false ∧
    consoleLines (notify "hello").2 = [notifyFormat "hello"] :=
  ⟨by decide, (notify_one_line "hello" (by decide)).1⟩

/-- Claim C2: for every well-formed text input, including the empty
string and non-ASCII strings, invoking the notify command through the
dispatcher always succeeds with the handler result and never yields an
error: the handler has no error path of its own. -/
theorem notify_never_fails (m : String) :
    dispatch "notify" m = some (notify m) ∧
    (dispatch "notify" m).isSome = true := by
  constructor <;> simp [dispatch]

/-- Claim C3 (counterexample): one call with a message holding an
embedded newline produces two console lines, not one identical line
per call. -/
theorem notify_idempotent_counterexample :
    (consoleLines (runNotifyN "x\ny" 1 "")).length = 2 ∧
    ¬ consoleLines (runNotifyN "x\ny" 1 "") =
        List.replicate 1 (notifyFormat "x\ny") := by
  decide

/-- Claim C3 (amended): for every message m containing no newline
character and every count n, n successive calls with m produce n
identical console lines, and no state accumulates between calls: the
stream after n calls is exactly the emitted bytes, and starting from
any prior stream only appends the same bytes. -/
theorem notify_idempotent (m : String) (n : Nat) (h : containsNewline m = false) :
    consoleLines (runNotifyN m n "") = List.replicate n (notifyFormat m) ∧
    runNotifyN m n "" = emitN m n ∧
    ∀ out : String, runNotifyN m n out = out ++ runNotifyN m n "" := by
  have hm : '\n' ∉ m.data := of_decide_eq_false h
  have he : runNotifyN m n "" = emitN m n := by
    rw [runNotifyN_eq m n ""]
    apply String.ext
    simp [String.data_append]
  refine ⟨?_, he, ?_⟩
  · rw [he]
    unfold consoleLines
    rw [consoleLinesAux_emitN m hm n, List.map_replicate]
  · intro out
    rw [runNotifyN_eq m n out, he]

/-- Claim C3 witness: the amended statement at the concrete message
ping repeated three times. -/
theorem notify_idempotent_witness :
    containsNewline "ping" = false ∧
    consoleLines (runNotifyN "ping" 3 "") = List.replicate 3 (notifyFormat "ping") :=
  ⟨by decide, (notify_idempotent "ping" 3 (by decide)).1⟩

/-- Claim C4: the concrete scenarios: the input hello yields the line
with the header followed by hello, and the empty input yields the line
that is exactly the header ending in a space. -/
theorem notify_scenarios :
    consoleLines (notify "hello").2 = ["Notification from renderer: hello"] ∧
    consoleLines (notify "").2 = ["Notification from renderer: "] := by
  decide

/-- Claim C5: the entire call surface is the single operation notify
with one string parameter and unit result: a registered name list of
exactly notify, the notify call always reaching the handler with a
unit first component, and every successful dispatch being a notify
dispatch with the handler result. -/
theorem rpc_surface (cmd m : String) (r : Unit × String) :
    registeredCommands = ["notify"] ∧
    dispatch "notify" m = some ((), (notify m).2) ∧
    (dispatch cmd m = some r → cmd = "notify" ∧ r = notify m) := by
  refine ⟨rfl, rfl, ?_⟩
  intro h
  by_cases hc : cmd = "notify"
  · subst hc
    refine ⟨rfl, ?_⟩
    have hs : some (notify m) = some r := by simpa [dispatch] using h
    exact (Option.some.inj hs).symm
  · simp [dispatch, hc] at h

/-- Claim C5 witness: the dispatch direction at the concrete command
name notify and message hi. -/
theorem rpc_surface_witness :
    "notify" = "notify" ∧ notify "hi" = notify "hi" :=
  (rpc_surface "notify" "hi" (notify "hi")).2.2 (by rfl)

/-- Claim C6: if the host runtime fails to start, the bootstrap
terminates the process at once with the expect diagnostic followed by
the error, and never reaches a normal exit; the outcome is terminal,
with no retry. -/
theorem startup_failure_fatal (e : String) :
    mainOutcome (RunResult.error e) =
      ProcessOutcome.panicked ("error while running tauri application" ++ ": " ++ e) ∧
    mainOutcome (RunResult.error e) ≠ ProcessOutcome.exitNormal := by
  refine ⟨rfl, ?_⟩
  intro h
  exact ProcessOutcome.noConfusion h

/-- Claim C6 witness: the failure outcome at a concrete error. -/
theorem startup_failure_fatal_witness :
    mainOutcome (RunResult.error "boom") =
      ProcessOutcome.panicked ("error while running tauri application" ++ ": " ++ "boom") :=
  (startup_failure_fatal "boom").1

/-- Claim C7: the bootstrap builds the runtime from the default
builder, registers the generated handler list so that notify is the
sole registered operation, loads the statically bundled context, and
starts the blocking event loop. -/
theorem bootstrap_config :
    mainApp.builder = Builder.default.invokeHandler registeredCommands ∧
    mainApp.builder.handlers = ["notify"] ∧
    mainApp.context = generateContext ∧
    mainApp.context.bundled = true ∧
    mainApp.blocking = true :=
  ⟨rfl, rfl, rfl, rfl, rfl⟩

/-- Claim C8: the only effect of a handler invocation is the append to
the standard output stream: every other component of the world is
unchanged, and the handler returns unit. -/
theorem notify_frame {ρ : Type} (m : String) (w : World ρ) :
    (notifyWorld m w).rest = w.rest ∧
    (notifyWorld m w).stdout = w.stdout ++ (notify m).2 ∧
    (notify m).1 = () :=
  ⟨rfl, rfl, rfl⟩

/-- Claim C9: the message is embedded verbatim: the write is exactly
the header, the message and one newline; stripping the header and the
trailing newline recovers the message exactly, so the mapping from
message to output is injective. -/
theorem notify_verbatim (m₁ m₂ : String) :
    (notify m₁).2 = notifyHeader ++ m₁ ++ "\n" ∧
    recoverMessage (notify m₁).2 = m₁ ∧
    ((notify m₁).2 = (notify m₂).2 → m₁ = m₂) := by
  refine ⟨rfl, recover_notify m₁, ?_⟩
  intro h
  rw [← recover_notify m₁, ← recover_notify m₂, h]

/-- Claim C9 witness: recovery and injectivity at the concrete message
ab. -/
theorem notify_verbatim_witness :
    recoverMessage (notify "ab").2 = "ab" ∧ "ab" = "ab" :=
  ⟨(notify_verbatim "ab" "ab").2.1, (notify_verbatim "ab" "ab").2.2 (by rfl)⟩

/-- Claim C10: a message that itself contains a newline character
produces output spanning more than one console line, while the bytes
written are still exactly the header, the message unmodified, and one
trailing newline. -/
theorem notify_newline_multiline (m : String) (h : containsNewline m = true) :
    2 ≤ (consoleLines (notify m).2).length ∧
    (notify m).2 = notifyHeader ++ m ++ "\n" := by
  refine ⟨?_, rfl⟩
  have hm : '\n' ∈ m.data := of_decide_eq_true h
  unfold consoleLines
  rw [List.length_map, consoleLinesAux_length, data_notify]
  rw [List.count_append, List.count_append]
  have h0 : notifyHeader.data.count '\n' = 0 := by decide
  have h1 : (['\n'] : List Char).count '\n' = 1 := by decide
  have h2 : 0 < m.data.count '\n' := List.count_pos_iff.mpr hm
  omega

/-- Claim C10 witness: the multiline behaviour at a concrete message
holding one embedded newline. -/
theorem notify_newline_multiline_witness :
    containsNewline "p\nq" = true ∧
    2 ≤ (consoleLines (notify "p\nq").2).length :=
  ⟨by decide, (notify_newline_multiline "p\nq" (by decide)).1⟩
